import Mathlib

/-!
Verification of the FlightDelayHackathon repository.

Shallow embedding of the two core components:
  - the serving component src/server/app.py (request validation, prediction
    response shaping, airport lookup, artifact loading), and
  - the training pipeline src/create_model.py (data cleaning, artifact
    metadata, airport directory construction).

Machine floats of the source are modelled as exact rationals; the trained
classifier is modelled as an abstract function from the two integer features
to the pair of class probabilities, which is exactly the capability the
serving code uses (predict_proba on a single row).
-/

namespace FlightDelay

/-- A JSON scalar as the Python handler sees it after request.get_json():
either an int (isinstance(x, int) holds) or some non-int value. -/
inductive PyVal where
  | vint (n : ℤ)
  | vstr (s : String)
deriving DecidableEq, Repr

/-- The JSON body of a predict request: each of the two expected keys is
either present (with some value) or absent. -/
structure Req where
  day_of_week : Option PyVal
  airport_id : Option PyVal
deriving DecidableEq, Repr

/-- One row of data/airports.csv, as loaded into airports_df. -/
structure AirportRecord where
  AirportID : ℤ
  AirportName : String
  City : String
  State : String
deriving DecidableEq, Repr

/-- The trained classifier, reduced to the capability the server uses:
model.predict_proba([[day_of_week, airport_id]])[0] yields the pair
(probability of class 0 = no delay, probability of class 1 = delay). -/
def Model : Type := ℤ → ℤ → ℚ × ℚ

/-- The success payload of the /predict endpoint (app.py lines 163-178),
with the nested input and interpretation objects flattened; the
human-readable interpretation.message string is presentation-only formatting
of the same numbers and is not modelled. -/
structure SuccessBody where
  delay_probability : ℚ
  delay_chance_percent : ℚ
  confidence_percent : ℚ
  no_delay_probability : ℚ
  input_day_of_week : ℤ
  input_day_name : String
  input_airport_id : ℤ
  input_airport_name : String
  confidence_level : String
deriving DecidableEq, Repr

/-- An HTTP response of the server: an error with its status code and
message, a predict success body, or an airport lookup success body. -/
inductive Resp where
  | error (status : ℕ) (message : String)
  | success (body : SuccessBody)
  | airport (r : AirportRecord)
deriving DecidableEq, Repr

/-- The HTTP status code a response is served with (Flask default 200 for
success payloads). -/
def respStatus : Resp → ℕ
  | .error s _ => s
  | .success _ => 200
  | .airport _ => 200

/-- The day_names dict of app.py lines 158-161: dict.get returns none for a
key outside 1..7. -/
def day_names (d : ℤ) : Option String :=
  if d = 1 then some "Monday"
  else if d = 2 then some "Tuesday"
  else if d = 3 then some "Wednesday"
  else if d = 4 then some "Thursday"
  else if d = 5 then some "Friday"
  else if d = 6 then some "Saturday"
  else if d = 7 then some "Sunday"
  else none

/-- The error message of app.py line 136, built around the offending id. -/
def airport_missing_msg (m : ℤ) : String :=
  "Airport ID " ++ toString m ++ " not found in database"

/-- The error message of app.py line 250, built around the offending id. -/
def airport_404_msg (m : ℤ) : String :=
  "Airport with ID " ++ toString m ++ " not found"

/-- The straight-line success branch of predict_delay, app.py lines 139-178:
probabilities from the classifier, confidence as the maximum class
probability times 100, airport name looked up by filtering the directory and
taking the first row (Unknown when the directory is absent or the filter is
empty), day name from the fixed dict with default Unknown, and the
three-level confidence tier. -/
def mkSuccessBody (M : Model) (airports_df : Option (List AirportRecord))
    (dow aid : ℤ) : SuccessBody :=
  let probs := M dow aid
  let delay_probability := probs.2
  let no_delay_probability := probs.1
  let confidence_percent := max probs.1 probs.2 * 100
  let airport_name :=
    match airports_df with
    | none => "Unknown"
    | some df =>
      match df.filter (fun r => decide (r.AirportID = aid)) with
      | [] => "Unknown"
      | r :: _ => r.AirportName
  { delay_probability := delay_probability
    delay_chance_percent := delay_probability * 100
    confidence_percent := confidence_percent
    no_delay_probability := no_delay_probability
    input_day_of_week := dow
    input_day_name := (day_names dow).getD "Unknown"
    input_airport_id := aid
    input_airport_name := airport_name
    confidence_level :=
      if confidence_percent > 80 then "High"
      else if confidence_percent > 60 then "Medium" else "Low" }

/-- The /predict handler, app.py lines 100-178. The first component is the
response; the second records whether model.predict_proba was invoked while
producing it. The checks appear in source order: model loaded (line 102),
JSON body present (line 108), both fields present (line 112), day_of_week an
integer in 1..7 as one combined check with one message (line 121),
airport_id an integer (line 127), airport membership only when airports_df
is loaded (lines 133-134). -/
def predict_delay (model : Option Model) (airports_df : Option (List AirportRecord))
    (data : Option Req) : Resp × Bool :=
  match model with
  | none => (.error 500 "Model not loaded", false)
  | some M =>
    match data with
    | none => (.error 400 "No JSON data provided", false)
    | some d =>
      match d.day_of_week, d.airport_id with
      | some dow, some aid =>
        match dow with
        | .vstr _ =>
          (.error 400 "day_of_week must be an integer between 1 (Monday) and 7 (Sunday)",
            false)
        | .vint n =>
          if n < 1 ∨ 7 < n then
            (.error 400 "day_of_week must be an integer between 1 (Monday) and 7 (Sunday)",
              false)
          else
            match aid with
            | .vstr _ => (.error 400 "airport_id must be an integer", false)
            | .vint m =>
              match airports_df with
              | some df =>
                if m ∈ df.map AirportRecord.AirportID then
                  (.success (mkSuccessBody M airports_df n m), true)
                else
                  (.error 400 (airport_missing_msg m), false)
              | none => (.success (mkSuccessBody M airports_df n m), true)
      | _, _ =>
        (.error 400 "Missing required fields: day_of_week and airport_id", false)

/-- The /airports/<int:airport_id> handler, app.py lines 243-261: 500 when
the directory is not loaded, 404 when no row matches, otherwise the first
matching row. -/
def get_airport_by_id (airports_df : Option (List AirportRecord))
    (airport_id : ℤ) : Resp :=
  match airports_df with
  | none => .error 500 "Airports data not loaded"
  | some df =>
    match df.filter (fun r => decide (r.AirportID = airport_id)) with
    | [] => .error 404 (airport_404_msg airport_id)
    | r :: _ => .airport r

/-- A metadata value in the model_info dict. -/
inductive MetaVal where
  | str (s : String)
  | rat (q : ℚ)
  | strList (l : List String)
deriving DecidableEq, Repr

/-- The feature list of create_model.py line 59. -/
def features : List String := ["DayOfWeek", "OriginAirportID"]

/-- The feature_info dict persisted to model/model_info.pkl,
create_model.py lines 143-148: feature names, model kind tag, measured
accuracy and a free-text description. -/
def feature_info (accuracy : ℚ) : List (String × MetaVal) :=
  [("features", .strList features),
   ("model_type", .str "RandomForestClassifier"),
   ("accuracy", .rat accuracy),
   ("description",
    .str "Predicts probability of flight delay >15 minutes based on day of week and airport")]

/-- load_model_and_data of app.py lines 27-52: reads the model pickle, the
model_info pickle and the airports csv; any read failure makes the whole
load fail (return False, modelled as none); a successful load accepts the
three artifacts as they are, with no inspection of the metadata. -/
def load_model_and_data (modelFile : Option Model)
    (infoFile : Option (List (String × MetaVal)))
    (airportsFile : Option (List AirportRecord)) :
    Option (Model × List (String × MetaVal) × List AirportRecord) :=
  match modelFile, infoFile, airportsFile with
  | some m, some i, some a => some (m, i, a)
  | _, _, _ => none

/-- A raw cell of the flight table: present with a rational value, or
missing (NaN). -/
def RawCell : Type := Option ℚ

/-- One raw row of data/flights.csv as far as cleaning is concerned: the
DepDel15 label cell plus the remaining numeric cells in column order. -/
structure RawRow where
  DepDel15 : Option ℚ
  cells : List (Option ℚ)
deriving DecidableEq, Repr

/-- A cleaned row: no missing values, and the label coerced to an integer. -/
structure CleanRow where
  DepDel15 : ℤ
  cells : List ℚ
deriving DecidableEq, Repr

/-- df.fillna(0) on one cell, create_model.py line 49. -/
def fillna0 (c : Option ℚ) : ℚ := c.getD 0

/-- Series.astype(int) on one value: float-to-int conversion truncates
toward zero. -/
def astype_int (q : ℚ) : ℤ := q.num.tdiv q.den

/-- The cleaning step of create_model.py lines 49-54: fill every missing
cell with zero, then coerce the DepDel15 column to integers. -/
def df_clean (df : List RawRow) : List CleanRow :=
  df.map fun r =>
    { DepDel15 := astype_int (fillna0 r.DepDel15)
      cells := r.cells.map fillna0 }

/-- One row of the cleaned flight table as far as the airports extraction of
create_model.py lines 159-163 is concerned: the origin-side and the
destination-side airport columns. -/
structure FlightRow where
  OriginAirportID : ℤ
  OriginAirportName : String
  OriginCity : String
  OriginState : String
  DestAirportID : ℤ
  DestAirportName : String
  DestCity : String
  DestState : String
deriving DecidableEq, Repr

/-- The origin_airports frame, create_model.py lines 159-160: the four
origin columns renamed to the directory schema. -/
def origin_airports (rows : List FlightRow) : List AirportRecord :=
  rows.map fun r => ⟨r.OriginAirportID, r.OriginAirportName, r.OriginCity, r.OriginState⟩

/-- The dest_airports frame, create_model.py lines 162-163. -/
def dest_airports (rows : List FlightRow) : List AirportRecord :=
  rows.map fun r => ⟨r.DestAirportID, r.DestAirportName, r.DestCity, r.DestState⟩

/-- DataFrame.drop_duplicates with subset AirportID keeps, in order, the
first row of each id; seen accumulates ids already emitted. -/
def dropDupAux (seen : List ℤ) : List AirportRecord → List AirportRecord
  | [] => []
  | r :: rs =>
    if r.AirportID ∈ seen then dropDupAux seen rs
    else r :: dropDupAux (r.AirportID :: seen) rs

/-- drop_duplicates on the AirportID column, create_model.py line 166. -/
def drop_duplicates_by_id (l : List AirportRecord) : List AirportRecord :=
  dropDupAux [] l

/-- The ascending-by-id order used by sort_values on AirportID. -/
def leById (a b : AirportRecord) : Prop := a.AirportID ≤ b.AirportID

instance : DecidableRel leById := fun a b =>
  inferInstanceAs (Decidable (a.AirportID ≤ b.AirportID))

instance : IsTotal AirportRecord leById :=
  ⟨fun a b => Int.le_total a.AirportID b.AirportID⟩

instance : IsTrans AirportRecord leById :=
  ⟨fun _ _ _ h₁ h₂ => le_trans h₁ h₂⟩

/-- The candidate list before deduplication: pd.concat stacks the origin
block above the destination block, create_model.py line 166. -/
def airport_candidates (rows : List FlightRow) : List AirportRecord :=
  origin_airports rows ++ dest_airports rows

/-- The all_airports table of create_model.py lines 166-167: concatenate,
drop duplicate ids keeping the first occurrence, sort ascending by id. -/
def all_airports (rows : List FlightRow) : List AirportRecord :=
  List.insertionSort leById (drop_duplicates_by_id (airport_candidates rows))

/- Concrete fixtures used by witnesses and counterexamples. -/

/-- A concrete stub classifier: class probabilities 7/10 and 3/10
everywhere. -/
def mTest : Model := fun _ _ => (7/10, 3/10)

/-- A concrete stub classifier with maximum class probability 11/20, whose
confidence percentage lands in the Low tier. -/
def mLow : Model := fun _ _ => (11/20, 9/20)

/-- A two-airport directory. -/
def dirTest : List AirportRecord :=
  [⟨12478, "John F Kennedy International", "New York", "NY"⟩,
   ⟨13930, "Chicago OHare International", "Chicago", "IL"⟩]

/-- A well-formed request: Monday at airport 13930. -/
def reqTest : Req := ⟨some (.vint 1), some (.vint 13930)⟩

/-- The success body the server produces for reqTest against mTest and
dirTest. -/
def bodyTest : SuccessBody := mkSuccessBody mTest (some dirTest) 1 13930

/-- The success body produced by the Low-confidence stub classifier. -/
def bodyLow : SuccessBody := mkSuccessBody mLow (some dirTest) 1 13930

/-- The success body produced when the airport directory is not loaded. -/
def bodyNoDir : SuccessBody := mkSuccessBody mTest none 3 999999

/-- One flight row whose origin and destination are the same airport. -/
def rowSame : FlightRow :=
  ⟨13930, "Chicago OHare International", "Chicago", "IL",
   13930, "Chicago OHare International", "Chicago", "IL"⟩

/-- A second flight row between two distinct airports, one shared with
rowSame. -/
def rowCross : FlightRow :=
  ⟨12478, "John F Kennedy International", "New York", "NY",
   13930, "Chicago OHare International", "Chicago", "IL"⟩

/-- A two-row cleaned flight table exercising origin and destination
duplication. -/
def rowsTest : List FlightRow := [rowSame, rowCross]

/- Helper lemmas shared across claims. -/

/-- Taking the first element of a filtered list is the same as find?. -/
theorem find?_eq_head?_filter (p : α → Bool) (l : List α) :
    l.find? p = (l.filter p).head? := by
  induction l with
  | nil => rfl
  | cons x xs ih =>
    by_cases h : p x
    · rw [List.find?_cons_of_pos _ h, List.filter_cons_of_pos h]
      rfl
    · rw [List.find?_cons_of_neg _ h, List.filter_cons_of_neg h, ih]

/-- Projection lemmas for the success body builder. -/
theorem mkSuccessBody_delay (M : Model) (dir? : Option (List AirportRecord)) (n k : ℤ) :
    (mkSuccessBody M dir? n k).delay_probability = (M n k).2 := rfl

theorem mkSuccessBody_no_delay (M : Model) (dir? : Option (List AirportRecord)) (n k : ℤ) :
    (mkSuccessBody M dir? n k).no_delay_probability = (M n k).1 := rfl

theorem mkSuccessBody_confidence (M : Model) (dir? : Option (List AirportRecord)) (n k : ℤ) :
    (mkSuccessBody M dir? n k).confidence_percent = max (M n k).1 (M n k).2 * 100 := rfl

theorem mkSuccessBody_chance (M : Model) (dir? : Option (List AirportRecord)) (n k : ℤ) :
    (mkSuccessBody M dir? n k).delay_chance_percent = (M n k).2 * 100 := rfl

theorem mkSuccessBody_dow (M : Model) (dir? : Option (List AirportRecord)) (n k : ℤ) :
    (mkSuccessBody M dir? n k).input_day_of_week = n := rfl

theorem mkSuccessBody_aid (M : Model) (dir? : Option (List AirportRecord)) (n k : ℤ) :
    (mkSuccessBody M dir? n k).input_airport_id = k := rfl

theorem mkSuccessBody_day_name (M : Model) (dir? : Option (List AirportRecord)) (n k : ℤ) :
    (mkSuccessBody M dir? n k).input_day_name = (day_names n).getD "Unknown" := rfl

theorem mkSuccessBody_level (M : Model) (dir? : Option (List AirportRecord)) (n k : ℤ) :
    (mkSuccessBody M dir? n k).confidence_level
      = (if max (M n k).1 (M n k).2 * 100 > 80 then "High"
         else if max (M n k).1 (M n k).2 * 100 > 60 then "Medium" else "Low") := rfl

theorem mkSuccessBody_name_none (M : Model) (n k : ℤ) :
    (mkSuccessBody M none n k).input_airport_name = "Unknown" := rfl

theorem mkSuccessBody_name_some (M : Model) (df : List AirportRecord) (n k : ℤ) :
    (mkSuccessBody M (some df) n k).input_airport_name
      = (match df.filter (fun r => decide (r.AirportID = k)) with
         | [] => "Unknown"
         | r :: _ => r.AirportName) := rfl

/-- Exhaustive description of predict_delay when the model is loaded: either
the request is fully valid and the classifier runs on it, or some check
fails, an error is returned and the classifier is not invoked. -/
theorem predict_delay_cases (M : Model) (dir? : Option (List AirportRecord))
    (data : Option Req) :
    (∃ n k, data = some ⟨some (PyVal.vint n), some (PyVal.vint k)⟩
      ∧ 1 ≤ n ∧ n ≤ 7
      ∧ (∀ df, dir? = some df → k ∈ df.map AirportRecord.AirportID)
      ∧ predict_delay (some M) dir? data
          = (Resp.success (mkSuccessBody M dir? n k), true))
    ∨ (∃ e s, predict_delay (some M) dir? data = (Resp.error e s, false)) := by
  rcases data with _ | ⟨dw, ai⟩
  · exact Or.inr ⟨400, "No JSON data provided", rfl⟩
  rcases dw with _ | v
  · exact Or.inr ⟨400, "Missing required fields: day_of_week and airport_id", rfl⟩
  rcases ai with _ | a
  · exact Or.inr ⟨400, "Missing required fields: day_of_week and airport_id", rfl⟩
  rcases v with n | s
  · by_cases hc : n < 1 ∨ 7 < n
    · exact Or.inr ⟨400,
        "day_of_week must be an integer between 1 (Monday) and 7 (Sunday)",
        by simp [predict_delay, hc]⟩
    · rcases a with k | s
      · rcases dir? with _ | df
        · refine Or.inl ⟨n, k, rfl, by omega, by omega, ?_, ?_⟩
          · intro df h2; cases h2
          · simp [predict_delay, hc]
        · by_cases hm : k ∈ df.map AirportRecord.AirportID
          · refine Or.inl ⟨n, k, rfl, by omega, by omega, ?_, ?_⟩
            · intro df2 h2; cases h2; exact hm
            · simp [predict_delay, hc, hm]
          · exact Or.inr ⟨400, airport_missing_msg k, by simp [predict_delay, hc, hm]⟩
      · exact Or.inr ⟨400, "airport_id must be an integer",
          by simp [predict_delay, hc]⟩
  · exact Or.inr ⟨400,
      "day_of_week must be an integer between 1 (Monday) and 7 (Sunday)", rfl⟩

/-- Inversion: a success response can only come from a fully validated
request, and the body is exactly the one the success branch builds. -/
theorem predict_success_shape (M : Model) (dir? : Option (List AirportRecord))
    (data : Option Req) (body : SuccessBody)
    (h : (predict_delay (some M) dir? data).1 = Resp.success body) :
    ∃ n k, data = some ⟨some (PyVal.vint n), some (PyVal.vint k)⟩
      ∧ 1 ≤ n ∧ n ≤ 7
      ∧ body = mkSuccessBody M dir? n k
      ∧ (predict_delay (some M) dir? data).2 = true
      ∧ ∀ df, dir? = some df → k ∈ df.map AirportRecord.AirportID := by
  rcases predict_delay_cases M dir? data with
    ⟨n, k, hdata, h1, h7, hmem, heq⟩ | ⟨e, s, heq⟩
  · refine ⟨n, k, hdata, h1, h7, ?_, ?_, hmem⟩
    · rw [heq] at h
      exact (Resp.success.injEq _ _).mp h.symm
    · rw [heq]
  · rw [heq] at h
    simp at h

/- C2: behavior of the service before the model artifact is loaded. -/

/-- C2 (amended): while the model artifact is not loaded, every predict
request is rejected with a 500 Model not loaded error, and the classifier is
never invoked. -/
theorem C2_unready_rejects (dir? : Option (List AirportRecord)) (data : Option Req) :
    predict_delay none dir? data = (Resp.error 500 "Model not loaded", false) := rfl

/-- C2 counterexample: the claim says the rejection carries status 503; at a
concrete request issued while the model is not loaded, the served status is
500, not 503 (no computation is attempted, as the invocation flag shows). -/
theorem C2_counterexample :
    respStatus (predict_delay none (some dirTest) (some reqTest)).1 = 500
    ∧ respStatus (predict_delay none (some dirTest) (some reqTest)).1 ≠ 503
    ∧ (predict_delay none (some dirTest) (some reqTest)).2 = false :=
  ⟨rfl, by decide, rfl⟩

/-- C2 witness: the amended theorem at a concrete unready-state request. -/
theorem C2_witness :
    predict_delay none (some dirTest) (some reqTest)
      = (Resp.error 500 "Model not loaded", false) :=
  C2_unready_rejects (some dirTest) (some reqTest)

/- C3: artifact metadata and version checking. -/

/-- C3 (amended): the persisted metadata records exactly the feature names,
the model kind tag, the accuracy and a description - no serialization format
version - and the load operation accepts any metadata record without a
version check. -/
theorem C3_no_version_check (acc : ℚ) (M : Model) (info : List (String × MetaVal))
    (air : List AirportRecord) :
    (feature_info acc).map Prod.fst = ["features", "model_type", "accuracy", "description"]
    ∧ "version" ∉ (feature_info acc).map Prod.fst
    ∧ load_model_and_data (some M) (some info) (some air) = some (M, info, air) :=
  ⟨rfl, by simp [feature_info], rfl⟩

/-- C3 counterexample: the recorded metadata keys contain no version, and
loading succeeds even on an empty metadata record, instead of failing with a
version error. -/
theorem C3_counterexample :
    "version" ∉ (feature_info (8/10)).map Prod.fst
    ∧ load_model_and_data (some mTest) (some []) (some [])
        = some (mTest, [], []) :=
  ⟨by decide, rfl⟩

/-- C3 witness: the amended theorem at concrete artifacts. -/
theorem C3_witness :
    load_model_and_data (some mTest) (some (feature_info (8/10))) (some dirTest)
      = some (mTest, feature_info (8/10), dirTest) :=
  (C3_no_version_check (8/10) mTest (feature_info (8/10)) dirTest).2.2

/- C8: the airport lookup endpoint. -/

/-- C8: on an id absent from the loaded directory, get_airport_by_id serves
a 404 not-found error (distinct from the 400 validation status); on a
present id it serves the record of that airport. -/
theorem C8_get_airport (df : List AirportRecord) (i : ℤ) :
    (i ∉ df.map AirportRecord.AirportID →
      get_airport_by_id (some df) i = Resp.error 404 (airport_404_msg i)
      ∧ respStatus (get_airport_by_id (some df) i) = 404
      ∧ respStatus (get_airport_by_id (some df) i) ≠ 400)
    ∧ (i ∈ df.map AirportRecord.AirportID →
      ∃ r, df.find? (fun x => decide (x.AirportID = i)) = some r
        ∧ r ∈ df ∧ r.AirportID = i
        ∧ get_airport_by_id (some df) i = Resp.airport r) := by
  constructor
  · intro hi
    have hfil : df.filter (fun r => decide (r.AirportID = i)) = [] := by
      rw [List.filter_eq_nil_iff]
      intro a ha hdec
      exact hi (List.mem_map.mpr ⟨a, ha, by simpa using hdec⟩)
    have hresp : get_airport_by_id (some df) i = Resp.error 404 (airport_404_msg i) := by
      simp only [get_airport_by_id, hfil]
    rw [hresp]
    exact ⟨rfl, rfl, by simp [respStatus]⟩
  · intro hi
    obtain ⟨r0, hr0, hid⟩ := List.mem_map.mp hi
    have hr0f : r0 ∈ df.filter (fun r => decide (r.AirportID = i)) :=
      List.mem_filter.mpr ⟨hr0, by simpa using hid⟩
    cases hfe : df.filter (fun r => decide (r.AirportID = i)) with
    | nil => rw [hfe] at hr0f; cases hr0f
    | cons r rest =>
      have hrmem : r ∈ df.filter (fun x => decide (x.AirportID = i)) := by
        rw [hfe]; exact List.mem_cons_self r rest
      obtain ⟨hrdf, hrp⟩ := List.mem_filter.mp hrmem
      refine ⟨r, ?_, hrdf, by simpa using hrp, ?_⟩
      · rw [find?_eq_head?_filter, hfe]; rfl
      · rw [get_airport_by_id, hfe]

/-- C8 witness: a concrete absent id is served a 404 with the not-found
message. -/
theorem C8_witness :
    get_airport_by_id (some dirTest) 99999 = Resp.error 404 (airport_404_msg 99999) :=
  (((C8_get_airport dirTest 99999).1 (by decide)).1)

/- C9: predict with a loaded model but no airport directory. -/

/-- C9: when the model is loaded but the airport directory is not, the
membership check is skipped: any integer airport id with a valid day is
classified and served a success response whose airport name is Unknown. -/
theorem C9_no_directory (M : Model) (n k : ℤ) (h1 : 1 ≤ n) (h7 : n ≤ 7) :
    predict_delay (some M) none (some ⟨some (.vint n), some (.vint k)⟩)
      = (Resp.success (mkSuccessBody M none n k), true)
    ∧ (mkSuccessBody M none n k).input_airport_name = "Unknown"
    ∧ (mkSuccessBody M none n k).input_airport_id = k := by
  have hc : ¬(n < 1 ∨ 7 < n) := by omega
  exact ⟨by simp [predict_delay, hc], rfl, rfl⟩

/-- C9 witness: day 3 with an airport id absent from every directory is
still classified, and the echoed airport name is Unknown. -/
theorem C9_witness :
    predict_delay (some mTest) none (some ⟨some (.vint 3), some (.vint 999999)⟩)
      = (Resp.success bodyNoDir, true)
    ∧ bodyNoDir.input_airport_name = "Unknown" :=
  ⟨(C9_no_directory mTest 3 999999 (by decide) (by decide)).1,
   (C9_no_directory mTest 3 999999 (by decide) (by decide)).2.1⟩

/- C1: order of the validation checks. -/

/-- C1 counterexample: with both fields present, an out-of-range integer day
and a non-integer airport id, the reported error is the day check (a
combined type-and-range complaint about day_of_week), not an error about the
airport id being a non-integer - so the both-values-are-integers check does
not precede the day range check as the claim states. -/
theorem C1_counterexample :
    (predict_delay (some mTest) (some dirTest)
        (some ⟨some (PyVal.vint 8), some (PyVal.vstr "LAX")⟩)).1
      = Resp.error 400 "day_of_week must be an integer between 1 (Monday) and 7 (Sunday)"
    ∧ (predict_delay (some mTest) (some dirTest)
        (some ⟨some (PyVal.vint 8), some (PyVal.vstr "LAX")⟩)).1
      ≠ Resp.error 400 "airport_id must be an integer" := by
  constructor
  · have hc : (8:ℤ) < 1 ∨ (7:ℤ) < 8 := by omega
    simp [predict_delay, hc]
  · have hc : (8:ℤ) < 1 ∨ (7:ℤ) < 8 := by omega
    simp [predict_delay, hc]

/-- C1 (amended): validation is performed in the order: both fields present,
then day_of_week is an integer in 1..7 as one combined check with one error,
then airport_id is an integer, then airport membership (when the directory
is loaded); validation short-circuits with the first failing check, and the
classifier is never invoked when any check fails. -/
theorem C1_validation_order (M : Model) (dir? : Option (List AirportRecord)) (d : Req) :
    ((d.day_of_week = none ∨ d.airport_id = none) →
      predict_delay (some M) dir? (some d)
        = (Resp.error 400 "Missing required fields: day_of_week and airport_id", false))
    ∧ (∀ v a, d.day_of_week = some v → d.airport_id = some a →
        ((∀ n, v = PyVal.vint n → n < 1 ∨ 7 < n) →
          predict_delay (some M) dir? (some d)
            = (Resp.error 400
                "day_of_week must be an integer between 1 (Monday) and 7 (Sunday)", false))
        ∧ (∀ n, v = PyVal.vint n → 1 ≤ n → n ≤ 7 → (∀ k, a ≠ PyVal.vint k) →
            predict_delay (some M) dir? (some d)
              = (Resp.error 400 "airport_id must be an integer", false))
        ∧ (∀ n k df, v = PyVal.vint n → 1 ≤ n → n ≤ 7 → a = PyVal.vint k →
            dir? = some df → k ∉ df.map AirportRecord.AirportID →
            predict_delay (some M) dir? (some d)
              = (Resp.error 400 (airport_missing_msg k), false)))
    ∧ (∀ e s, (predict_delay (some M) dir? (some d)).1 = Resp.error e s →
        (predict_delay (some M) dir? (some d)).2 = false) := by
  obtain ⟨dw, ai⟩ := d
  refine ⟨?_, ?_, ?_⟩
  · rintro (h | h)
    · cases h
      rfl
    · cases h
      cases dw with
      | none => rfl
      | some v => rfl
  · rintro v a hv ha
    cases hv
    cases ha
    refine ⟨?_, ?_, ?_⟩
    · intro hday
      cases v with
      | vstr s => rfl
      | vint n =>
        have hc := hday n rfl
        simp [predict_delay, hc]
    · rintro n rfl h1 h7 hnk
      cases a with
      | vint k => exact absurd rfl (hnk k)
      | vstr s =>
        have hc : ¬(n < 1 ∨ 7 < n) := by omega
        simp [predict_delay, hc]
    · rintro n k df rfl h1 h7 rfl rfl hm
      have hc : ¬(n < 1 ∨ 7 < n) := by omega
      simp [predict_delay, hc, hm]
  · intro e s herr
    rcases predict_delay_cases M dir? (some ⟨dw, ai⟩) with
      ⟨n, k, hdata, _, _, _, heq⟩ | ⟨e2, s2, heq⟩
    · rw [heq] at herr
      simp at herr
    · rw [heq]

/-- C1 witness: the amended theorem at a concrete request missing its
airport_id field. -/
theorem C1_witness :
    predict_delay (some mTest) (some dirTest) (some ⟨some (PyVal.vint 3), none⟩)
      = (Resp.error 400 "Missing required fields: day_of_week and airport_id", false) :=
  (C1_validation_order mTest (some dirTest) ⟨some (PyVal.vint 3), none⟩).1
    (Or.inr rfl)

/- C4: the confidence computation. -/

/-- C4: in every success response, confidence_percent is exactly the larger
of the two class probabilities times 100, and those two probabilities are
exactly what the classifier returns on the feature vector of the request. -/
theorem C4_confidence_max (M : Model) (dir? : Option (List AirportRecord))
    (data : Option Req) (body : SuccessBody)
    (h : (predict_delay (some M) dir? data).1 = Resp.success body) :
    body.confidence_percent = max body.delay_probability body.no_delay_probability * 100
    ∧ ∃ n k, data = some ⟨some (PyVal.vint n), some (PyVal.vint k)⟩
        ∧ body.no_delay_probability = (M n k).1
        ∧ body.delay_probability = (M n k).2 := by
  obtain ⟨n, k, hdata, h1, h7, hbody, hinv, hmem⟩ :=
    predict_success_shape M dir? data body h
  subst hbody
  refine ⟨?_, n, k, hdata, rfl, rfl⟩
  rw [mkSuccessBody_confidence, mkSuccessBody_delay, mkSuccessBody_no_delay, max_comm]

/-- C4 witness: the theorem at a concrete model, directory and request. -/
theorem C4_witness :
    bodyTest.confidence_percent
      = max bodyTest.delay_probability bodyTest.no_delay_probability * 100 :=
  (C4_confidence_max mTest (some dirTest) (some reqTest) bodyTest rfl).1

/- C7: shape of the success response. -/

/-- C7: every success response produced with the directory loaded has
delay_chance_percent equal to delay_probability times 100, a day in 1..7
whose echoed name is the one of the fixed mapping, an airport name equal to
the name of the first directory record with the requested id, and the
three-tier confidence level High above 80, Medium above 60, else Low. -/
theorem C7_response_fields (M : Model) (df : List AirportRecord) (data : Option Req)
    (body : SuccessBody)
    (h : (predict_delay (some M) (some df) data).1 = Resp.success body) :
    body.delay_chance_percent = body.delay_probability * 100
    ∧ 1 ≤ body.input_day_of_week ∧ body.input_day_of_week ≤ 7
    ∧ day_names body.input_day_of_week = some body.input_day_name
    ∧ (∃ r, df.find? (fun x => decide (x.AirportID = body.input_airport_id)) = some r
        ∧ body.input_airport_name = r.AirportName)
    ∧ body.confidence_level
        = (if body.confidence_percent > 80 then "High"
           else if body.confidence_percent > 60 then "Medium" else "Low") := by
  obtain ⟨n, k, hdata, h1, h7, hbody, hinv, hmem⟩ :=
    predict_success_shape M (some df) data body h
  subst hbody
  have hk := hmem df rfl
  obtain ⟨r0, hr0, hid0⟩ := List.mem_map.mp hk
  refine ⟨?_, ?_, ?_, ?_, ?_, ?_⟩
  · rw [mkSuccessBody_chance, mkSuccessBody_delay]
  · rw [mkSuccessBody_dow]; exact h1
  · rw [mkSuccessBody_dow]; exact h7
  · rw [mkSuccessBody_dow, mkSuccessBody_day_name]
    interval_cases n <;> simp [day_names]
  · have hr0f : r0 ∈ df.filter (fun r => decide (r.AirportID = k)) :=
      List.mem_filter.mpr ⟨hr0, by simpa using hid0⟩
    cases hfe : df.filter (fun r => decide (r.AirportID = k)) with
    | nil => rw [hfe] at hr0f; cases hr0f
    | cons r rest =>
      refine ⟨r, ?_, ?_⟩
      · rw [mkSuccessBody_aid, find?_eq_head?_filter, hfe]
        rfl
      · rw [mkSuccessBody_name_some, hfe]
  · rw [mkSuccessBody_level, mkSuccessBody_confidence]

/-- C7 witness: the theorem at a concrete model, directory and request. -/
theorem C7_witness :
    bodyTest.delay_chance_percent = bodyTest.delay_probability * 100
    ∧ day_names bodyTest.input_day_of_week = some bodyTest.input_day_name :=
  ⟨(C7_response_fields mTest dirTest (some reqTest) bodyTest rfl).1,
   (C7_response_fields mTest dirTest (some reqTest) bodyTest rfl).2.2.2.1⟩

/- C10: lower bound on the confidence. -/

/-- C10: in every success response whose two class probabilities are
non-negative and sum to one, confidence_percent is at least 50, and the Low
tier can only be reported with confidence_percent between 50 and 60. -/
theorem C10_low_tier_range (M : Model) (dir? : Option (List AirportRecord))
    (data : Option Req) (body : SuccessBody)
    (h : (predict_delay (some M) dir? data).1 = Resp.success body)
    (h0 : 0 ≤ body.no_delay_probability) (h1 : 0 ≤ body.delay_probability)
    (hsum : body.no_delay_probability + body.delay_probability = 1) :
    50 ≤ body.confidence_percent
    ∧ (body.confidence_level = "Low" →
        50 ≤ body.confidence_percent ∧ body.confidence_percent ≤ 60) := by
  obtain ⟨n, k, hdata, hn1, hn7, hbody, hinv, hmem⟩ :=
    predict_success_shape M dir? data body h
  subst hbody
  rw [mkSuccessBody_no_delay] at h0 hsum
  rw [mkSuccessBody_delay] at h1 hsum
  have hconf : 50 ≤ (mkSuccessBody M dir? n k).confidence_percent := by
    rw [mkSuccessBody_confidence]
    rcases le_total (M n k).1 (M n k).2 with hle | hle
    · rw [max_eq_right hle]; nlinarith
    · rw [max_eq_left hle]; nlinarith
  refine ⟨hconf, ?_⟩
  intro hlow
  rw [mkSuccessBody_level] at hlow
  rw [mkSuccessBody_confidence] at hconf ⊢
  by_cases c80 : max (M n k).1 (M n k).2 * 100 > 80
  · rw [if_pos c80] at hlow
    exact absurd hlow (by decide)
  · rw [if_neg c80] at hlow
    by_cases c60 : max (M n k).1 (M n k).2 * 100 > 60
    · rw [if_pos c60] at hlow
      exact absurd hlow (by decide)
    · exact ⟨hconf, by linarith [not_lt.mp c60]⟩

/-- C10 witness: the theorem at a stub classifier with class probabilities
11/20 and 9/20, whose confidence percentage is 55 and lands in the Low
tier. -/
theorem C10_witness :
    50 ≤ bodyLow.confidence_percent
    ∧ (bodyLow.confidence_level = "Low" →
        50 ≤ bodyLow.confidence_percent ∧ bodyLow.confidence_percent ≤ 60) :=
  C10_low_tier_range mLow (some dirTest) (some reqTest) bodyLow rfl
    (by norm_num [bodyLow, mkSuccessBody, mLow])
    (by norm_num [bodyLow, mkSuccessBody, mLow])
    (by norm_num [bodyLow, mkSuccessBody, mLow])

/- C5: the airport directory build. -/

/-- Counting rows with a given id after deduplication: zero when the id was
already seen, otherwise one exactly when the id occurs in the input. -/
theorem countP_dropDupAux (i : ℤ) (l : List AirportRecord) : ∀ seen : List ℤ,
    (dropDupAux seen l).countP (fun r => decide (r.AirportID = i))
      = if i ∈ seen then 0
        else if i ∈ l.map AirportRecord.AirportID then 1 else 0 := by
  induction l with
  | nil =>
    intro seen
    simp [dropDupAux]
  | cons r rs ih =>
    intro seen
    by_cases hs : r.AirportID ∈ seen
    · rw [dropDupAux, if_pos hs, ih]
      by_cases hi : i ∈ seen
      · simp [hi]
      · have hir : ¬ i = r.AirportID := fun he => hi (he ▸ hs)
        simp [hi, hir]
    · rw [dropDupAux, if_neg hs, List.countP_cons, ih]
      by_cases hir : i = r.AirportID
      · subst hir
        simp [hs]
      · have hri : ¬ r.AirportID = i := fun h => hir h.symm
        by_cases hi : i ∈ seen <;> simp [hi, hir, hri]

/-- A record survives deduplication exactly when it is the first input row
carrying its id. -/
theorem mem_dropDupAux (l : List AirportRecord) (r : AirportRecord) : ∀ seen : List ℤ,
    r ∈ dropDupAux seen l
      ↔ r.AirportID ∉ seen
        ∧ l.find? (fun x => decide (x.AirportID = r.AirportID)) = some r := by
  induction l with
  | nil =>
    intro seen
    simp [dropDupAux]
  | cons x xs ih =>
    intro seen
    by_cases hs : x.AirportID ∈ seen
    · rw [dropDupAux, if_pos hs, ih]
      constructor
      · rintro ⟨h1, h2⟩
        have hne : ¬ (x.AirportID = r.AirportID) := fun he => h1 (he ▸ hs)
        refine ⟨h1, ?_⟩
        rw [List.find?_cons_of_neg _ (by simpa using hne)]
        exact h2
      · rintro ⟨h1, h2⟩
        have hne : ¬ (x.AirportID = r.AirportID) := fun he => h1 (he ▸ hs)
        rw [List.find?_cons_of_neg _ (by simpa using hne)] at h2
        exact ⟨h1, h2⟩
    · rw [dropDupAux, if_neg hs]
      by_cases hxr : x.AirportID = r.AirportID
      · rw [List.mem_cons, ih]
        constructor
        · rintro (rfl | ⟨h1, h2⟩)
          · exact ⟨fun hmem => hs (hxr ▸ hmem),
              by rw [List.find?_cons_of_pos _ (by simp)]⟩
          · exact absurd (List.mem_cons.mpr (Or.inl hxr.symm)) h1
        · rintro ⟨h1, h2⟩
          rw [List.find?_cons_of_pos _ (by simpa using hxr)] at h2
          exact Or.inl (Option.some_injective _ h2).symm
      · rw [List.mem_cons, ih]
        constructor
        · rintro (rfl | ⟨h1, h2⟩)
          · exact absurd rfl hxr
          · have h1s : r.AirportID ∉ seen := fun hmem => h1 (List.mem_cons_of_mem _ hmem)
            refine ⟨h1s, ?_⟩
            rw [List.find?_cons_of_neg _ (by simpa using hxr)]
            exact h2
        · rintro ⟨h1, h2⟩
          rw [List.find?_cons_of_neg _ (by simpa using hxr)] at h2
          refine Or.inr ⟨?_, h2⟩
          simp only [List.mem_cons]
          rintro (he | hmem)
          · exact hxr he.symm
          · exact h1 hmem

/-- C5: all_airports stacks the origin columns above the destination
columns, deduplicates by id keeping the first occurrence, and sorts
ascending by id: the result is id-sorted, contains exactly one row per
candidate id (in particular one row for an id appearing both as origin and
destination), and that row is the first candidate carrying its id. -/
theorem C5_directory_build (rows : List FlightRow) :
    List.Sorted leById (all_airports rows)
    ∧ (∀ i : ℤ, (all_airports rows).countP (fun r => decide (r.AirportID = i))
        = if i ∈ (airport_candidates rows).map AirportRecord.AirportID then 1 else 0)
    ∧ (∀ r, r ∈ all_airports rows
        ↔ (airport_candidates rows).find? (fun x => decide (x.AirportID = r.AirportID))
            = some r) := by
  refine ⟨List.sorted_insertionSort leById _, ?_, ?_⟩
  · intro i
    have hperm := List.perm_insertionSort leById
      (drop_duplicates_by_id (airport_candidates rows))
    rw [all_airports, hperm.countP_eq, drop_duplicates_by_id, countP_dropDupAux]
    simp
  · intro r
    rw [all_airports, (List.perm_insertionSort leById _).mem_iff,
      drop_duplicates_by_id, mem_dropDupAux]
    simp

/-- C5 witness: in the two-row table where airport 13930 appears as origin
of one row and destination of both, the built directory has exactly one row
with id 13930. -/
theorem C5_witness :
    (all_airports rowsTest).countP (fun r => decide (r.AirportID = 13930)) = 1 := by
  rw [(C5_directory_build rowsTest).2.1 13930, if_pos]
  decide

/- C6: the cleaning step. -/

/-- C6 failing input: the code comment of create_model.py line 53 says the
cleaning ensures DepDel15 is binary, but astype(int) only truncates: a raw
table whose DepDel15 cell holds 2 cleans to label 2, outside 0..1, while row
count preservation and the fill-missing-with-zero policy do hold. -/
theorem C6_label_not_binary :
    (df_clean [{ DepDel15 := some 2, cells := [none] }]).map CleanRow.DepDel15 = [2]
    ∧ ¬ ((2:ℤ) = 0 ∨ (2:ℤ) = 1)
    ∧ (df_clean [{ DepDel15 := some 2, cells := [none] }]).length = 1
    ∧ (df_clean [{ DepDel15 := some 2, cells := [none] }]).map CleanRow.cells = [[0]] := by
  refine ⟨?_, by decide, rfl, ?_⟩
  · simp [df_clean, astype_int, fillna0]
  · simp [df_clean, fillna0]

end FlightDelay
